import Mathlib

set_option maxHeartbeats 1000000

/- Shallow embedding of the Circuit Breach tower-defense core:
   src/types.ts, src/constants.ts, src/utils/gameClasses.ts, src/App.tsx and
   src/services/gemini.ts.

   Modelling conventions:
   - JavaScript numbers are modelled as rationals; quantities that are integer
     valued in every reachable state (energy, kernel HP, wave counter, card
     cost) are naturals, so that Math.max(0, x - k) is natural subtraction and
     Math.floor(cost * 0.5) / (cost * 0.8) / (cost * 0.1) are cost / 2,
     cost * 4 / 5 and cost / 10.
   - The JavaScript Math library (sqrt, atan2, pow, random) is passed as an
     explicit MathEnv parameter, keeping every definition executable; theorems
     that need sqrt to really be a square root take that as a hypothesis at the
     concrete inputs involved.
   - App.tsx keeps two synchronized copies of HP and energy
     (gameRef.currentHP / currentEnergy and the React state kernelHP /
     energyPoints), updated in lockstep by every handler; they are modelled as
     one field each.
   - Object references (a projectile holding its target, a tower receiving a
     fire callback) are modelled by explicit state passing: update functions
     take the referenced entity and return its new value. -/

namespace CircuitBreach

/-- constants.ts -/
def GRID_SIZE : ℤ := 10

def TILE_SIZE : ℚ := 60

def MAX_ENERGY : ℕ := 50

def INITIAL_HP : ℕ := 100

/-- types.ts CardType -/
inductive CardType where
  | SECURITY_NODE
  | TACTICAL_PATCH
  | SYSTEM_OVERCLOCK
  | FIREWALL
  deriving DecidableEq, Repr

/-- types.ts Card.stats -/
structure CardStats where
  damage : Option ℚ := none
  range : Option ℚ := none
  fireRate : Option ℚ := none
  nodeType : Option String := none
  slowPower : Option ℚ := none
  deriving DecidableEq, Repr

/-- types.ts Card -/
structure Card where
  id : String
  name : String
  description : String
  cost : ℕ
  type : CardType
  rarity : String
  fusionTargetId : Option String := none
  stats : Option CardStats := none
  deriving DecidableEq, Repr

/-- types.ts Point -/
structure Point where
  x : ℚ
  y : ℚ
  deriving DecidableEq, Repr

/-- JavaScript `a || b` on an optional number: 0 counts as absent. -/
def jsOrQ (v : Option ℚ) (d : ℚ) : ℚ :=
  match v with
  | some q => if q = 0 then d else q
  | none => d

/-- JavaScript `a || b` on an optional string: the empty string counts as absent. -/
def jsOrS (v : Option String) (d : String) : String :=
  match v with
  | some s => if s = "" then d else s
  | none => d

/-- constants.ts MASTER_CARD_POOL entry basic_firewall -/
def basic_firewall : Card :=
  { id := "basic_firewall", name := "Basic Firewall",
    description := "Baseline sector isolation.", cost := 4,
    type := CardType.SECURITY_NODE, rarity := "COMMON",
    fusionTargetId := some "quantum_gate",
    stats := some { damage := some 2, range := some (12/10), fireRate := some (5/10),
                    nodeType := some "FIREWALL" } }

/-- constants.ts MASTER_CARD_POOL entry quantum_gate -/
def quantum_gate : Card :=
  { id := "quantum_gate", name := "Quantum Gate",
    description := "Fused Evolution: Retaliatory energy pulse.", cost := 8,
    type := CardType.SECURITY_NODE, rarity := "RARE",
    stats := some { damage := some 15, range := some (15/10), fireRate := some (12/10),
                    nodeType := some "QUANTUM" } }

/-- constants.ts MASTER_CARD_POOL entry scout_sensor -/
def scout_sensor : Card :=
  { id := "scout_sensor", name := "Scout Sensor",
    description := "Early detection of high-speed packets.", cost := 3,
    type := CardType.SECURITY_NODE, rarity := "COMMON",
    fusionTargetId := some "deep_packet_inspector",
    stats := some { damage := some 4, range := some 4, fireRate := some (15/10),
                    nodeType := some "SCOUT" } }

/-- constants.ts MASTER_CARD_POOL entry deep_packet_inspector -/
def deep_packet_inspector : Card :=
  { id := "deep_packet_inspector", name := "Deep Packet Inspector",
    description := "Reveals hidden sub-routines.", cost := 7,
    type := CardType.SECURITY_NODE, rarity := "RARE",
    stats := some { damage := some 8, range := some 6, fireRate := some 2,
                    nodeType := some "DPI" } }

/-- constants.ts MASTER_CARD_POOL entry static_burst -/
def static_burst : Card :=
  { id := "static_burst", name := "Static Burst",
    description := "Electronic interference node.", cost := 3,
    type := CardType.SECURITY_NODE, rarity := "COMMON",
    fusionTargetId := some "neural_tempest",
    stats := some { damage := some 2, range := some (25/10), fireRate := some (5/10),
                    nodeType := some "STATIC" } }

/-- constants.ts MASTER_CARD_POOL entry neural_tempest -/
def neural_tempest : Card :=
  { id := "neural_tempest", name := "Neural Tempest",
    description := "Massive AoE shock node.", cost := 7,
    type := CardType.SECURITY_NODE, rarity := "RARE",
    stats := some { damage := some 12, range := some (35/10), fireRate := some 1,
                    nodeType := some "TEMPEST" } }

/-- constants.ts MASTER_CARD_POOL entry corrosive_script -/
def corrosive_script : Card :=
  { id := "corrosive_script", name := "Corrosive Script",
    description := "Persistent erosion sub-routine.", cost := 5,
    type := CardType.SECURITY_NODE, rarity := "UNCOMMON",
    stats := some { damage := some 20, range := some 3, fireRate := some (8/10),
                    nodeType := some "CORROSIVE" } }

/-- constants.ts MASTER_CARD_POOL entry logic_bomb -/
def logic_bomb : Card :=
  { id := "logic_bomb", name := "Logic Bomb",
    description := "Mainframe junction clearer.", cost := 6,
    type := CardType.TACTICAL_PATCH, rarity := "RARE",
    stats := some { damage := some 60, range := some 2, nodeType := some "EXPLOSIVE" } }

/-- constants.ts MASTER_CARD_POOL entry vpn_tunnel -/
def vpn_tunnel : Card :=
  { id := "vpn_tunnel", name := "VPN Tunnel",
    description := "Packet rerouting delay sub-routine.", cost := 4,
    type := CardType.SECURITY_NODE, rarity := "UNCOMMON",
    stats := some { damage := some 1, range := some 3, fireRate := some (5/10),
                    nodeType := some "VPN", slowPower := some (4/10) } }

/-- constants.ts MASTER_CARD_POOL entry protocol_sentry -/
def protocol_sentry : Card :=
  { id := "protocol_sentry", name := "Protocol Sentry",
    description := "General-purpose threat mitigation.", cost := 6,
    type := CardType.SECURITY_NODE, rarity := "COMMON",
    stats := some { damage := some 10, range := some 4, fireRate := some (18/10),
                    nodeType := some "SENTRY" } }

/-- constants.ts MASTER_CARD_POOL entry synapse_fryer -/
def synapse_fryer : Card :=
  { id := "synapse_fryer", name := "Synapse Fryer",
    description := "High-energy plasma piercer.", cost := 8,
    type := CardType.SECURITY_NODE, rarity := "RARE",
    stats := some { damage := some 35, range := some 5, fireRate := some (12/10),
                    nodeType := some "PLASMA" } }

/-- constants.ts MASTER_CARD_POOL entry brain_jack -/
def brain_jack : Card :=
  { id := "brain_jack", name := "Brain-Jack",
    description := "Infection redirection module.", cost := 9,
    type := CardType.SECURITY_NODE, rarity := "LEGENDARY",
    stats := some { damage := some 15, range := some 4, fireRate := some (5/10),
                    nodeType := some "JACK" } }

/-- constants.ts MASTER_CARD_POOL entry system_scan -/
def system_scan : Card :=
  { id := "system_scan", name := "Mainframe Scan",
    description := "Initiate visual vulnerability diagnostic.", cost := 2,
    type := CardType.TACTICAL_PATCH, rarity := "UNCOMMON" }

/-- constants.ts MASTER_CARD_POOL as an association list keyed by card id. -/
def MASTER_CARD_POOL : List (String × Card) :=
  [("basic_firewall", basic_firewall), ("quantum_gate", quantum_gate),
   ("scout_sensor", scout_sensor), ("deep_packet_inspector", deep_packet_inspector),
   ("static_burst", static_burst), ("neural_tempest", neural_tempest),
   ("corrosive_script", corrosive_script), ("logic_bomb", logic_bomb),
   ("vpn_tunnel", vpn_tunnel), ("protocol_sentry", protocol_sentry),
   ("synapse_fryer", synapse_fryer), ("brain_jack", brain_jack),
   ("system_scan", system_scan)]

/-- MASTER_CARD_POOL[id]: record lookup by key. -/
def lookupPool (id : String) : Option Card :=
  (MASTER_CARD_POOL.find? (fun p => p.1 = id)).map (fun p => p.2)

/-- constants.ts INITIAL_DECK -/
def INITIAL_DECK : List Card :=
  [basic_firewall, basic_firewall, scout_sensor, scout_sensor,
   static_burst, system_scan, protocol_sentry]

/-- The JavaScript Math library for one update call: sqrt, atan2, powers of two
    and the (up to three) Math.random() draws the enemy trail code makes. -/
structure MathEnv where
  sqrt : ℚ → ℚ
  atan2 : ℚ → ℚ → ℚ
  pow2 : ℚ → ℚ
  r0 : ℚ := 0
  r1 : ℚ := 0
  r2 : ℚ := 0

/-- One dot of the MalwarePacket data-leak trail (gameClasses.ts line 19). -/
structure TrailDot where
  x : ℚ
  y : ℚ
  life : ℚ
  deriving DecidableEq, Repr

/-- gameClasses.ts MalwarePacket fields. -/
structure MalwarePacket where
  x : ℚ
  y : ℚ
  hp : ℚ
  maxHp : ℚ
  speed : ℚ
  baseSpeed : ℚ
  path : List Point
  pathIndex : ℕ
  isDead : Bool
  radius : ℚ
  type : String
  slowFactor : ℚ
  angle : ℚ
  trail : List TrailDot
  deriving DecidableEq, Repr

/-- gameClasses.ts MalwarePacket constructor (lines 21-53): variant switch over
    the tactical profile scaling table, spawn position at the first path point. -/
def MalwarePacket.new (path : List Point) (statsHp statsSpeed : ℚ)
    (type : String) : MalwarePacket :=
  let p0 := path.headD { x := 0, y := 0 }
  let rms : ℚ × ℚ × ℚ :=
    if type = "SWARM_PACKET" then (8, statsHp * (6/10), statsSpeed * (14/10))
    else if type = "ARMORED_ELITE" then (15, statsHp * (25/10), statsSpeed * (7/10))
    else if type = "STEALTH_WORM" then (12, statsHp * (12/10), statsSpeed * (11/10))
    else (10, statsHp, statsSpeed)
  { x := p0.x * TILE_SIZE + TILE_SIZE / 2,
    y := p0.y * TILE_SIZE + TILE_SIZE / 2,
    hp := rms.2.1, maxHp := rms.2.1, speed := rms.2.2, baseSpeed := rms.2.2,
    path := path, pathIndex := 0, isDead := false, radius := rms.1,
    type := type, slowFactor := 1, angle := 0, trail := [] }

/-- gameClasses.ts line 58: the speed actually used this tick. -/
def MalwarePacket.currentSpeed (e : MalwarePacket) : ℚ :=
  e.baseSpeed * e.slowFactor

/-- The next waypoint (path[pathIndex + 1]); only read when the cursor is not
    already at the final waypoint. -/
def MalwarePacket.targetPoint (e : MalwarePacket) : Point :=
  e.path.getD (e.pathIndex + 1) { x := 0, y := 0 }

/-- gameClasses.ts line 66: horizontal distance to the next waypoint center. -/
def MalwarePacket.dxToNext (e : MalwarePacket) : ℚ :=
  (e.targetPoint.x * TILE_SIZE + TILE_SIZE / 2) - e.x

/-- gameClasses.ts line 67: vertical distance to the next waypoint center. -/
def MalwarePacket.dyToNext (e : MalwarePacket) : ℚ :=
  (e.targetPoint.y * TILE_SIZE + TILE_SIZE / 2) - e.y

/-- gameClasses.ts MalwarePacket.update (lines 55-94).  Returns the new packet
    state and the reached-end signal.  If the path cursor is already at the
    final waypoint it returns true immediately with no mutation.  Otherwise the
    effective speed of the tick is baseSpeed * slowFactor, the slow factor is
    reset to 1, the data-leak trail is updated (using the MathEnv random
    draws), and the packet either snaps to the next waypoint (advancing the
    cursor) or moves the effective speed along the direction to it. -/
def MalwarePacket.update (env : MathEnv) (e : MalwarePacket) (deltaTime : ℚ) :
    MalwarePacket × Bool :=
  if e.pathIndex ≥ e.path.length - 1 then (e, true)
  else
    let cs := e.currentSpeed
    let dx := e.dxToNext
    let dy := e.dyToNext
    let dist := env.sqrt (dx * dx + dy * dy)
    let newAngle := if dist > 1/10 then env.atan2 dy dx else e.angle
    let trail0 :=
      if env.r0 > 7/10 then
        e.trail ++ [{ x := e.x + (env.r1 - 1/2) * 10,
                      y := e.y + (env.r2 - 1/2) * 10, life := 1 }]
      else e.trail
    let trail1 :=
      (trail0.map (fun t => { t with life := t.life - deltaTime * 3 })).filter
        (fun t => t.life > 0)
    if dist < cs then
      let tp := e.targetPoint
      ({ e with x := tp.x * TILE_SIZE + TILE_SIZE / 2,
                y := tp.y * TILE_SIZE + TILE_SIZE / 2,
                pathIndex := e.pathIndex + 1,
                slowFactor := 1, angle := newAngle, trail := trail1 }, false)
    else
      ({ e with x := e.x + dx / dist * cs,
                y := e.y + dy / dist * cs,
                slowFactor := 1, angle := newAngle, trail := trail1 }, false)

/-- gameClasses.ts SecurityNode.REROUTE_DURATION (0.3 s). -/
def REROUTE_DURATION : ℚ := 3/10

/-- gameClasses.ts SecurityNode fields. -/
structure SecurityNode where
  x : ℚ
  y : ℚ
  gridX : ℤ
  gridY : ℤ
  card : Card
  cooldown : ℚ
  range : ℚ
  damage : ℚ
  fireRate : ℚ
  type : String
  slowPower : ℚ
  isRerouting : Bool
  rerouteTimer : ℚ
  startX : ℚ
  startY : ℚ
  targetX : ℚ
  targetY : ℚ
  killCount : ℕ
  upTime : ℚ
  deriving DecidableEq, Repr

/-- gameClasses.ts SecurityNode constructor (lines 286-297): stats derived from
    the card with JavaScript-|| defaults (range 2, damage 0, fireRate 1,
    nodeType LASER, slowPower 0). -/
def SecurityNode.new (gx gy : ℤ) (card : Card) : SecurityNode :=
  { gridX := gx, gridY := gy,
    x := (gx : ℚ) * TILE_SIZE + TILE_SIZE / 2,
    y := (gy : ℚ) * TILE_SIZE + TILE_SIZE / 2,
    card := card, cooldown := 0,
    range := jsOrQ (card.stats.bind (fun s => s.range)) 2 * TILE_SIZE,
    damage := jsOrQ (card.stats.bind (fun s => s.damage)) 0,
    fireRate := jsOrQ (card.stats.bind (fun s => s.fireRate)) 1,
    type := jsOrS (card.stats.bind (fun s => s.nodeType)) "LASER",
    slowPower := jsOrQ (card.stats.bind (fun s => s.slowPower)) 0,
    isRerouting := false, rerouteTimer := 0,
    startX := 0, startY := 0, targetX := 0, targetY := 0,
    killCount := 0, upTime := 0 }

/-- gameClasses.ts SecurityNode.setPosition (lines 358-365): instant snap. -/
def SecurityNode.setPosition (n : SecurityNode) (gx gy : ℤ) : SecurityNode :=
  { n with gridX := gx, gridY := gy,
           x := (gx : ℚ) * TILE_SIZE + TILE_SIZE / 2,
           y := (gy : ℚ) * TILE_SIZE + TILE_SIZE / 2,
           isRerouting := false }

/-- gameClasses.ts SecurityNode.startReroute (lines 367-376): the grid
    coordinates update immediately, the pixel position starts animating. -/
def SecurityNode.startReroute (n : SecurityNode) (gx gy : ℤ) : SecurityNode :=
  { n with gridX := gx, gridY := gy,
           startX := n.x, startY := n.y,
           targetX := (gx : ℚ) * TILE_SIZE + TILE_SIZE / 2,
           targetY := (gy : ℚ) * TILE_SIZE + TILE_SIZE / 2,
           rerouteTimer := 0, isRerouting := true }

/-- gameClasses.ts SecurityNode.findTarget (lines 343-356): nearest enemy
    strictly inside range, scanning in list order; returns its index.  The
    JavaScript minDist = Infinity start is modelled by an Option accumulator. -/
def findTargetAux (env : MathEnv) (n : SecurityNode) :
    List MalwarePacket → ℕ → Option (ℚ × ℕ) → Option ℕ
  | [], _, best => best.map (fun b => b.2)
  | e :: rest, i, best =>
    let dist := env.sqrt ((e.x - n.x) * (e.x - n.x) + (e.y - n.y) * (e.y - n.y))
    let closer : Bool :=
      match best with
      | none => decide (dist < n.range)
      | some b => decide (dist < n.range ∧ dist < b.1)
    if closer then findTargetAux env n rest (i + 1) (some (dist, i))
    else findTargetAux env n rest (i + 1) best

/-- gameClasses.ts SecurityNode.findTarget. -/
def SecurityNode.findTarget (env : MathEnv) (n : SecurityNode)
    (enemies : List MalwarePacket) : Option ℕ :=
  findTargetAux env n enemies 0 none

/-- gameClasses.ts SecurityNode.update (lines 299-341): accumulate uptime,
    advance an active reroute animation through the exponential ease-out,
    clamp the slow factor of every enemy in range down to 1 - slowPower via
    min, then (for damaging nodes) run the cooldown/fire logic.  The fire
    callback is modelled by returning the index of the fired-at enemy. -/
def SecurityNode.update (env : MathEnv) (node : SecurityNode) (deltaTime : ℚ)
    (enemies : List MalwarePacket) :
    SecurityNode × List MalwarePacket × Option ℕ :=
  let n1 := { node with upTime := node.upTime + deltaTime }
  let n2 :=
    if n1.isRerouting then
      let timer := n1.rerouteTimer + deltaTime
      let t := min 1 (timer / REROUTE_DURATION)
      let factor := if t = 1 then 1 else 1 - env.pow2 (-10 * t)
      let moved := { n1 with rerouteTimer := timer,
                             x := n1.startX + (n1.targetX - n1.startX) * factor,
                             y := n1.startY + (n1.targetY - n1.startY) * factor }
      if t ≥ 1 then
        { moved with isRerouting := false, x := moved.targetX, y := moved.targetY }
      else moved
    else n1
  let enemies1 :=
    if n2.slowPower > 0 then
      enemies.map (fun e =>
        let dist := env.sqrt ((e.x - n2.x) * (e.x - n2.x) + (e.y - n2.y) * (e.y - n2.y))
        if dist < n2.range then
          { e with slowFactor := min e.slowFactor (1 - n2.slowPower) }
        else e)
    else enemies
  if n2.damage ≤ 0 then (n2, enemies1, none)
  else if n2.cooldown > 0 then
    ({ n2 with cooldown := n2.cooldown - deltaTime }, enemies1, none)
  else
    match n2.findTarget env enemies1 with
    | some i => ({ n2 with cooldown := 1 / n2.fireRate }, enemies1, some i)
    | none => (n2, enemies1, none)

/-- gameClasses.ts FirewallBuffer fields.  The target and sourceNode object
    references are modelled by passing the target state into update and
    reporting the kill attribution as an output flag; hasSource records
    whether a source node was attached at construction. -/
structure FirewallBuffer where
  x : ℚ
  y : ℚ
  speed : ℚ
  damage : ℚ
  isDead : Bool
  hasSource : Bool
  deriving DecidableEq, Repr

/-- gameClasses.ts FirewallBuffer constructor (lines 409-415), speed 8. -/
def FirewallBuffer.new (x y : ℚ) (damage : ℚ) (hasSource : Bool) : FirewallBuffer :=
  { x := x, y := y, speed := 8, damage := damage, isDead := false,
    hasSource := hasSource }

/-- Result of one FirewallBuffer.update call: new projectile, new target state,
    whether damage was applied this call, and whether the source node kill
    counter was incremented this call. -/
structure ProjHit where
  proj : FirewallBuffer
  target : MalwarePacket
  didDamage : Bool
  killInc : Bool
  deriving DecidableEq, Repr

/-- gameClasses.ts FirewallBuffer.update (lines 417-433): a projectile whose
    target is already dead marks itself dead and applies nothing; otherwise it
    homes at fixed speed and, within the hit threshold, applies its damage
    once, marks itself dead, and credits the source node when the hit brings
    the target to 0 or below. -/
def FirewallBuffer.update (env : MathEnv) (p : FirewallBuffer)
    (t : MalwarePacket) : ProjHit :=
  if t.hp ≤ 0 then
    { proj := { p with isDead := true }, target := t,
      didDamage := false, killInc := false }
  else
    let dx := t.x - p.x
    let dy := t.y - p.y
    let dist := env.sqrt (dx * dx + dy * dy)
    if dist < p.speed then
      let t2 := { t with hp := t.hp - p.damage }
      { proj := { p with isDead := true }, target := t2, didDamage := true,
        killInc := decide (t2.hp ≤ 0) && p.hasSource }
    else
      { proj := { p with x := p.x + dx / dist * p.speed,
                         y := p.y + dy / dist * p.speed },
        target := t, didDamage := false, killInc := false }

/-- The App.tsx projectile loop (lines 834-838) calls update once per frame and
    removes a projectile as soon as isDead holds, so a dead projectile is never
    updated again.  runProj replays that lifetime for fuel frames, letting an
    arbitrary tchange function modify the target between frames (movement,
    damage from other projectiles), and counts the damage applications and
    kill-counter increments performed by this one projectile. -/
def runProj (env : MathEnv) (tchange : ℕ → MalwarePacket → MalwarePacket) :
    ℕ → FirewallBuffer → MalwarePacket → ℕ × ℕ
  | 0, _, _ => (0, 0)
  | fuel + 1, p, t =>
    if p.isDead then (0, 0)
    else
      ((if (p.update env t).didDamage then 1 else 0) +
         (runProj env tchange fuel (p.update env t).proj
           (tchange fuel (p.update env t).target)).1,
       (if (p.update env t).killInc then 1 else 0) +
         (runProj env tchange fuel (p.update env t).proj
           (tchange fuel (p.update env t).target)).2)

/-- types.ts AegisResponse.system_status -/
structure SystemStatus where
  intensity_band : String
  calculated_threat_level : ℚ
  malware_encryption_strength : String
  deriving DecidableEq, Repr

/-- types.ts AegisResponse.wave_parameters.stat_multipliers -/
structure StatMultipliers where
  hp : ℚ
  speed : ℚ
  deriving DecidableEq, Repr

/-- types.ts AegisResponse.wave_parameters -/
structure WaveParameters where
  wave_difficulty : ℚ
  malware_type : String
  stat_multipliers : StatMultipliers
  deriving DecidableEq, Repr

/-- types.ts AegisResponse.exploit_kit_update -/
structure ExploitKitUpdate where
  suggested_cards_ids : List String
  reasoning : String
  deriving DecidableEq, Repr

/-- types.ts AegisResponse.tactical_analysis -/
structure TacticalAnalysis where
  skill_gap_identified : String
  causal_justification : String
  deriving DecidableEq, Repr

/-- types.ts AegisResponse -/
structure AegisResponse where
  system_status : SystemStatus
  wave_parameters : WaveParameters
  exploit_kit_update : ExploitKitUpdate
  tactical_analysis : TacticalAnalysis
  kernel_log_message : String
  deriving DecidableEq, Repr

/-- gemini.ts getAegisReasoning lines 114-120: the local fallback response used
    whenever the advisory round-trip throws. -/
def aegisFallback : AegisResponse :=
  { system_status := { intensity_band := "SWEET-SPOT",
                       calculated_threat_level := 1/2,
                       malware_encryption_strength := "Low" },
    wave_parameters := { wave_difficulty := 1, malware_type := "STANDARD",
                         stat_multipliers := { hp := 1, speed := 1 } },
    exploit_kit_update := { suggested_cards_ids := ["basic_firewall", "protocol_sentry"],
                            reasoning := "Communication bottleneck. Deploying default mitigation kit." },
    tactical_analysis := { skill_gap_identified := "N/A",
                           causal_justification := "Connectivity interrupted." },
    kernel_log_message := "[SYS] SIGNAL_LOSS: LOCAL_RECOVERY_ENGAGED." }

/-- gemini.ts getAegisReasoning (lines 108-230): the whole body is wrapped in
    try/catch and the catch returns the fallback, so the function never
    produces null — any thrown error (network failure, rate-limit exhaustion,
    malformed JSON) yields aegisFallback.  The ok branch carries the
    field-sanitized response of the successful round-trip; its field-by-field
    defaulting is not needed by any claim and is abstracted as the already
    sanitized AegisResponse value. -/
def getAegisReasoning (result : Except Unit AegisResponse) : AegisResponse :=
  match result with
  | Except.ok r => r
  | Except.error _ => aegisFallback

/-- App.tsx game state.  Merges the React GameState with the gameRef scratch
    fields that every handler keeps in lockstep with it (currentEnergy /
    energyPoints, currentHP / kernelHP, difficultyMultiplier, nodes) and with
    the selection hooks (selectedIndices, selectedNodeIndex,
    reroutingNodeIndex). -/
structure AppState where
  kernelHP : ℕ
  energyPoints : ℕ
  waveNumber : ℕ
  hand : List Card
  deck : List Card
  discard : List Card
  statusLog : List String
  nodes : List SecurityNode
  difficultyMultiplier : ℚ
  totalCardsDeployed : ℕ
  advisoryCount : ℕ
  selectedIndices : List ℕ
  selectedNodeIndex : Option ℕ
  reroutingNodeIndex : Option ℕ
  sessionActive : Bool
  isVictory : Bool
  isProcessing : Bool
  isWaveSummaryOpen : Bool
  deriving DecidableEq, Repr

/-- App.tsx addLog (lines 205-210): prepend the message, keep 20 entries. -/
def addLog (msg : String) (s : AppState) : AppState :=
  { s with statusLog := (msg :: s.statusLog).take 20 }

/-- App.tsx gameRef.path (lines 56-65): the fixed enemy route. -/
def appPath : List Point :=
  [{ x := 0, y := 5 }, { x := 2, y := 5 }, { x := 2, y := 2 }, { x := 5, y := 2 },
   { x := 5, y := 7 }, { x := 8, y := 7 }, { x := 8, y := 5 }, { x := 9, y := 5 }]

/-- App.tsx isTileOnPath (lines 190-203): a tile lies on the route when some
    consecutive waypoint pair brackets it on a shared row or column. -/
def isTileOnPath (tx ty : ℚ) : Bool :=
  (List.range (appPath.length - 1)).any (fun i =>
    let p1 := appPath.getD i { x := 0, y := 0 }
    let p2 := appPath.getD (i + 1) { x := 0, y := 0 }
    decide ((p1.x = p2.x ∧ tx = p1.x ∧ min p1.y p2.y ≤ ty ∧ ty ≤ max p1.y p2.y) ∨
            (p1.y = p2.y ∧ ty = p1.y ∧ min p1.x p2.x ≤ tx ∧ tx ≤ max p1.x p2.x)))

/-- JavaScript Array.prototype.pop: remove and return the last element. -/
def popLast (l : List Card) : Option (Card × List Card) :=
  match l.reverse with
  | [] => none
  | c :: rest => some (c, rest.reverse)

/-- The while loop of App.tsx drawHand (lines 284-291): while the hand has
    fewer than 5 cards and a card is available, refill an empty deck by
    shuffling the discard pile into it, then pop the top (last) deck card into
    the hand.  Each productive iteration grows the hand by one card, so fuel 5
    covers every JavaScript execution. -/
def drawLoop (shuffle : List Card → List Card) :
    ℕ → List Card → List Card → List Card → List Card × List Card × List Card
  | 0, hand, deck, discard => (hand, deck, discard)
  | fuel + 1, hand, deck, discard =>
    if hand.length < 5 ∧ (deck ≠ [] ∨ discard ≠ []) then
      if deck = [] then
        match popLast (shuffle discard) with
        | some cd => drawLoop shuffle fuel (hand ++ [cd.1]) cd.2 []
        | none => (hand, shuffle discard, [])
      else
        match popLast deck with
        | some cd => drawLoop shuffle fuel (hand ++ [cd.1]) cd.2 discard
        | none => (hand, deck, discard)
    else (hand, deck, discard)

/-- App.tsx drawHand (lines 278-294).  The random in-place sort of the
    recycled discard pile is modelled by the shuffle parameter; a JavaScript
    call with an overridingHand argument (arrays, including [], are truthy)
    replaces the hand before drawing. -/
def drawHand (shuffle : List Card → List Card) (overridingHand : Option (List Card))
    (s : AppState) : AppState :=
  let hand0 := overridingHand.getD s.hand
  let r := drawLoop shuffle 5 hand0 s.deck s.discard
  { s with hand := r.1, deck := r.2.1, discard := r.2.2 }

/-- App.tsx decompileNode (lines 540-579): remove the node; if the hand has
    room (< 5 cards) refund floor(cost * 0.5) energy and return the card to
    the hand, otherwise refund floor(cost * 0.8) energy only.  Both refunds
    are clamped to MAX_ENERGY. -/
def decompileNode (idx : ℕ) (s : AppState) : AppState :=
  match s.nodes.get? idx with
  | none => s
  | some node =>
    let card := node.card
    let s1 := addLog ("[SYS] DECOMPILING " ++ card.name.toUpper ++ "...") s
    let s2 :=
      if s1.hand.length ≥ 5 then
        let ramRefund := card.cost * 4 / 5
        let s2 := addLog ("[SYS] BUFFER OVERFLOW: CONVERTING " ++ card.name.toUpper ++
          " TO RAM (+" ++ toString ramRefund ++ " EP, 80%).") s1
        { s2 with energyPoints := min MAX_ENERGY (s2.energyPoints + ramRefund) }
      else
        let ramRefund := card.cost / 2
        let s2 := addLog ("[SYS] " ++ card.name.toUpper ++ " RECALLED. REFUNDING " ++
          toString ramRefund ++ " RAM (50%).") s1
        { s2 with hand := s2.hand ++ [card],
                  energyPoints := min MAX_ENERGY (s2.energyPoints + ramRefund) }
    { s2 with nodes := s2.nodes.eraseIdx idx,
              selectedNodeIndex := none, reroutingNodeIndex := none }

/-- App.tsx handleCanvasClick (lines 604-688) after the pixel-to-tile floor
    division: out-of-grid clicks are ignored; with a reroute in progress the
    click is the destination port (charged max(1, floor(cost * 0.1)), rejected
    with a log entry if occupied, on the path, or unaffordable); otherwise a
    click on an existing node selects it, and a click on free ground with
    exactly one hand card selected attempts placement. -/
def handleCanvasClick (s : AppState) (x y : ℤ) : AppState :=
  if x < 0 ∨ x ≥ GRID_SIZE ∨ y < 0 ∨ y ≥ GRID_SIZE then s
  else
    match s.reroutingNodeIndex with
    | some ridx =>
      match s.nodes.get? ridx with
      | none => s
      | some node =>
        let cost := max 1 (node.card.cost / 10)
        let occupied := s.nodes.any (fun n => decide (n.gridX = x ∧ n.gridY = y))
        if occupied ∨ isTileOnPath (x : ℚ) (y : ℚ) then
          { addLog "[ERROR] PORT UNAVAILABLE. REROUTE CANCELLED." s with
              reroutingNodeIndex := none }
        else if s.energyPoints < cost then
          { addLog "[ERROR] INSUFFICIENT RAM FOR REROUTE." s with
              reroutingNodeIndex := none }
        else
          let s1 := { s with nodes := s.nodes.set ridx (node.startReroute x y),
                             energyPoints := s.energyPoints - cost }
          let s2 := addLog "[SYS] REROUTE COMPLETE" s1
          { s2 with reroutingNodeIndex := none }
    | none =>
      match s.nodes.findIdx? (fun n => decide (n.gridX = x ∧ n.gridY = y)) with
      | some nodeIdx =>
        addLog "[SYS] ACCESSING SECTOR NODE"
          { s with selectedNodeIndex := some nodeIdx, selectedIndices := [] }
      | none =>
        match s.selectedIndices with
        | [idx] =>
          match s.hand.get? idx with
          | none => s
          | some card =>
            if card.type = CardType.SECURITY_NODE ∧ card.cost ≤ s.energyPoints then
              let occupied := s.nodes.any (fun n => decide (n.gridX = x ∧ n.gridY = y))
              if occupied ∨ isTileOnPath (x : ℚ) (y : ℚ) then
                addLog "[ERROR] SECTOR PORT UNAVAILABLE." s
              else
                let s1 := { s with
                  nodes := s.nodes ++ [SecurityNode.new x y card],
                  energyPoints := s.energyPoints - card.cost,
                  hand := s.hand.eraseIdx idx,
                  discard := s.discard ++ [card],
                  totalCardsDeployed := s.totalCardsDeployed + 1,
                  selectedIndices := [] }
                addLog ("[SYS] NODE " ++ card.name ++ " DEPLOYED") s1
            else if s.energyPoints < card.cost then
              addLog "[ERROR] INSUFFICIENT ENERGY FOR DEPLOYMENT." s
            else s
        | _ => { s with selectedNodeIndex := none }

/-- App.tsx canFuse (lines 941-943): exactly two selected hand slots holding
    cards with the same id and a defined fusion target.  JavaScript optional
    chaining on out-of-range slots makes the condition false exactly when a
    slot is invalid. -/
def canFuse (s : AppState) : Bool :=
  match s.selectedIndices with
  | [i1, i2] =>
    match s.hand.get? i1, s.hand.get? i2 with
    | some c1, some c2 => c1.id == c2.id && c1.fusionTargetId.isSome
    | _, _ => false
  | _ => false

/-- App.tsx fuseCards (lines 945-965): when fusion is allowed and the fusion
    target id resolves in the master pool, splice out the higher selected
    index then the lower one and push one instance of the fused card. -/
def fuseCards (s : AppState) : AppState :=
  if !(canFuse s && s.sessionActive) then s
  else
    match s.selectedIndices with
    | [i1, i2] =>
      match s.hand.get? i1 with
      | none => s
      | some card1 =>
        match card1.fusionTargetId with
        | none => s
        | some targetId =>
          match lookupPool targetId with
          | none => s
          | some fusedCard =>
            let s1 := addLog ("[SYS] FUSING DATA SIGNATURES: " ++ card1.name ++
              " x2 -> " ++ fusedCard.name) s
            { s1 with
                hand := ((s1.hand.eraseIdx (max i1 i2)).eraseIdx (min i1 i2)) ++ [fusedCard],
                selectedIndices := [] }
    | _ => s

/-- App.tsx proceedToNextCycle (lines 440-485): move the hand to the discard
    pile, then consume the advisory response.  getAegisReasoning never returns
    null (its catch returns the fallback), so the aegis branch always runs in
    the real game: wave counter + 1, energy + 15 clamped to MAX_ENERGY, the
    difficulty multiplier overwritten with the response value, and the hand
    replaced by the suggested cards (unknown ids default to protocol_sentry)
    before the normal refill.  The dead else branch (lines 481-484) is kept
    for fidelity. -/
def proceedToNextCycle (shuffle : List Card → List Card)
    (aegis : Option AegisResponse) (s : AppState) : AppState :=
  if s.isVictory ∨ s.sessionActive = false then s
  else
    let s1 := { s with isWaveSummaryOpen := false, isProcessing := true }
    let s2 := addLog "[SYS] BREACH EVENT CONCLUDED. ANALYZING DATA..." s1
    let s3 := { s2 with discard := s2.discard ++ s2.hand, hand := [] }
    match aegis with
    | some a =>
      let s4 := addLog ("[AEGIS] " ++ a.kernel_log_message) s3
      let newHand := a.exploit_kit_update.suggested_cards_ids.map
        (fun id => (lookupPool id).getD protocol_sentry)
      let s5 := { s4 with
        waveNumber := s4.waveNumber + 1,
        energyPoints := min MAX_ENERGY (s4.energyPoints + 15),
        isProcessing := false,
        advisoryCount := s4.advisoryCount + 1,
        difficultyMultiplier := a.wave_parameters.wave_difficulty }
      drawHand shuffle (some newHand) s5
    | none =>
      drawHand shuffle (some []) { s3 with isProcessing := false }

/-- App.tsx loop, lines 819-826, per breaching enemy: currentHP becomes
    max(0, currentHP - 12) (natural subtraction), and the terminal side
    effects (saveSession scheduling and the failure narration) fire exactly
    when the new HP is at or below zero while the old HP was above zero.  The
    state is (kernel HP, number of terminal firings so far). -/
def coreBreachStep (st : ℕ × ℕ) : ℕ × ℕ :=
  let newHP := st.1 - 12
  (newHP, if newHP = 0 ∧ 0 < st.1 then st.2 + 1 else st.2)

/-- coreBreachStep applied once per breaching enemy, in tick order; n counts
    breaches across one or several ticks (the loop body is identical). -/
def coreBreachRun (hp : ℕ) : ℕ → ℕ × ℕ
  | 0 => (hp, 0)
  | n + 1 => coreBreachStep (coreBreachRun hp n)

/-- A fresh session state matching App.tsx initialization (lines 44-92):
    20 energy, 100 HP, wave 0, difficulty 1.0, empty board, active session. -/
def baseState : AppState :=
  { kernelHP := 100, energyPoints := 20, waveNumber := 0,
    hand := [], deck := [], discard := [], statusLog := [],
    nodes := [], difficultyMultiplier := 1, totalCardsDeployed := 0,
    advisoryCount := 0, selectedIndices := [], selectedNodeIndex := none,
    reroutingNodeIndex := none, sessionActive := true, isVictory := false,
    isProcessing := false, isWaveSummaryOpen := false }

/-- C3: when an enemy reaches the end of the path, core integrity becomes
    max(0, integrity - 12) (here: natural subtraction of 12), and the terminal
    transition fires exactly once — it fires on the breach that takes the HP
    from positive to zero (0 < hp ∧ hp ≤ 12 * n after n breaches), never when
    the integrity is already zero, even when several enemies breach in the
    same tick. -/
theorem C3_core_breach_terminal_once (hp n : ℕ) :
    coreBreachRun hp n = (hp - 12 * n, if 0 < hp ∧ hp ≤ 12 * n then 1 else 0) := by
  induction n with
  | zero =>
    simp only [coreBreachRun, Prod.mk.injEq]
    constructor
    · omega
    · split_ifs <;> omega
  | succ n ih =>
    rw [coreBreachRun, ih, coreBreachStep]
    simp only [Prod.mk.injEq]
    constructor
    · omega
    · split_ifs <;> omega

/-- C3 witness: a breach at integrity 10 zeroes it and fires the terminal
    transition exactly once; two further breaches in the same tick fire
    nothing more. -/
theorem C3_core_breach_witness : coreBreachRun 10 3 = (0, 1) := by
  rw [C3_core_breach_terminal_once]
  norm_num

/-- C4: decompiling the tower at a valid index removes it from the board; if
    the hand has room (fewer than 5 cards) the refund is floor(cost * 0.5)
    energy (added under the global MAX_ENERGY clamp) and the card returns to
    the hand, otherwise the refund is floor(cost * 0.8) energy only and the
    card does not return. -/
theorem C4_decompile_refund (s : AppState) (idx : ℕ) (node : SecurityNode)
    (h : s.nodes.get? idx = some node) :
    (s.hand.length < 5 →
      (decompileNode idx s).energyPoints
          = min MAX_ENERGY (s.energyPoints + node.card.cost / 2) ∧
      (decompileNode idx s).hand = s.hand ++ [node.card] ∧
      (decompileNode idx s).nodes = s.nodes.eraseIdx idx) ∧
    (5 ≤ s.hand.length →
      (decompileNode idx s).energyPoints
          = min MAX_ENERGY (s.energyPoints + node.card.cost * 4 / 5) ∧
      (decompileNode idx s).hand = s.hand ∧
      (decompileNode idx s).nodes = s.nodes.eraseIdx idx) := by
  have h' : s.nodes[idx]? = some node := by
    rw [← List.get?_eq_getElem?]; exact h
  constructor
  · intro hlt
    have hlt' : ¬ 5 ≤ s.hand.length := by omega
    simp [decompileNode, h', addLog, hlt']
  · intro hge
    simp [decompileNode, h', addLog, hge]

/-- Demo board for the decompile rule: one basic firewall deployed at (4,4). -/
def decompileDemo : AppState :=
  { baseState with nodes := [SecurityNode.new 4 4 basic_firewall] }

/-- C4 witness: with an empty hand (room available), decompiling the cost-4
    basic firewall refunds floor(4 * 0.5) = 2 energy (20 → 22) and returns
    the card to the hand. -/
theorem C4_decompile_witness :
    decompileDemo.nodes.get? 0 = some (SecurityNode.new 4 4 basic_firewall) ∧
    decompileDemo.hand.length < 5 ∧
    (decompileNode 0 decompileDemo).energyPoints = 22 ∧
    (decompileNode 0 decompileDemo).hand = [basic_firewall] ∧
    (decompileNode 0 decompileDemo).nodes = [] := by
  have h := (C4_decompile_refund decompileDemo 0 (SecurityNode.new 4 4 basic_firewall)
    rfl).1 (by decide)
  refine ⟨rfl, by decide, ?_, ?_, ?_⟩
  · rw [h.1]; decide
  · rw [h.2.1]; rfl
  · rw [h.2.2]; rfl

/-- C8: with exactly two hand slots selected holding cards of the same id
    whose fusion target resolves in the master pool, fuseCards removes exactly
    those two originals (higher index spliced first, then the lower) and
    appends one instance of the fusion-target card, so the hand shrinks by
    exactly one card. -/
theorem C8_fusion_determinism (s : AppState) (i1 i2 : ℕ) (c1 c2 : Card)
    (targetId : String) (fused : Card)
    (hact : s.sessionActive = true)
    (hsel : s.selectedIndices = [i1, i2]) (hne : i1 ≠ i2)
    (h1 : s.hand.get? i1 = some c1) (h2 : s.hand.get? i2 = some c2)
    (hid : c1.id = c2.id) (hft : c1.fusionTargetId = some targetId)
    (hp : lookupPool targetId = some fused) :
    (fuseCards s).hand
        = ((s.hand.eraseIdx (max i1 i2)).eraseIdx (min i1 i2)) ++ [fused] ∧
    (fuseCards s).hand.length + 1 = s.hand.length := by
  have h1' : s.hand[i1]? = some c1 := by rw [← List.get?_eq_getElem?]; exact h1
  have h2' : s.hand[i2]? = some c2 := by rw [← List.get?_eq_getElem?]; exact h2
  have hcf : canFuse s = true := by
    simp [canFuse, hsel, h1', h2', hid, hft]
  have hhand : (fuseCards s).hand
      = ((s.hand.eraseIdx (max i1 i2)).eraseIdx (min i1 i2)) ++ [fused] := by
    simp [fuseCards, hcf, hact, hsel, h1', hft, hp, addLog]
  have hi1 : i1 < s.hand.length := by
    by_contra hh
    push_neg at hh
    rw [List.get?_eq_none.2 hh] at h1
    cases h1
  have hi2 : i2 < s.hand.length := by
    by_contra hh
    push_neg at hh
    rw [List.get?_eq_none.2 hh] at h2
    cases h2
  have hmax : max i1 i2 < s.hand.length := by omega
  have e1 : (s.hand.eraseIdx (max i1 i2)).length = s.hand.length - 1 :=
    List.length_eraseIdx_of_lt hmax
  have hmin : min i1 i2 < (s.hand.eraseIdx (max i1 i2)).length := by
    rw [e1]; omega
  have e2 : ((s.hand.eraseIdx (max i1 i2)).eraseIdx (min i1 i2)).length
      = s.hand.length - 1 - 1 := by
    rw [List.length_eraseIdx_of_lt hmin, e1]
  refine ⟨hhand, ?_⟩
  rw [hhand]
  simp only [List.length_append, List.length_cons, List.length_nil, e2]
  omega

/-- Demo hand for the fusion rule: two copies of Basic Firewall selected. -/
def fusionDemo : AppState :=
  { baseState with hand := [basic_firewall, basic_firewall],
                   selectedIndices := [0, 1] }

/-- C8 witness: fusing the two selected Basic Firewalls yields exactly one
    Quantum Gate, shrinking the hand from 2 cards to 1. -/
theorem C8_fusion_witness :
    fusionDemo.hand.get? 0 = some basic_firewall ∧
    basic_firewall.fusionTargetId = some "quantum_gate" ∧
    (fuseCards fusionDemo).hand = [quantum_gate] ∧
    (fuseCards fusionDemo).hand.length + 1 = fusionDemo.hand.length := by
  have h := C8_fusion_determinism fusionDemo 0 1 basic_firewall basic_firewall
    "quantum_gate" quantum_gate rfl rfl (by decide) rfl rfl rfl rfl rfl
  refine ⟨rfl, rfl, ?_, h.2⟩
  rw [h.1]; rfl

/-- C9: with a reroute in progress, clicking an occupied or path tile, or one
    the player cannot afford, leaves the board and the energy unchanged and
    prepends a rejection entry to the status log; clicking a free, affordable
    tile charges exactly max(1, floor(cost * 0.1)) energy and moves the
    tower's grid position to the clicked tile. -/
theorem C9_reroute_rules (s : AppState) (x y : ℤ) (ridx : ℕ) (node : SecurityNode)
    (hr : s.reroutingNodeIndex = some ridx)
    (hn : s.nodes.get? ridx = some node)
    (hx0 : 0 ≤ x) (hx1 : x < GRID_SIZE) (hy0 : 0 ≤ y) (hy1 : y < GRID_SIZE) :
    ((s.nodes.any (fun n => decide (n.gridX = x ∧ n.gridY = y)) = true ∨
        isTileOnPath (x : ℚ) (y : ℚ) = true) →
      (handleCanvasClick s x y).nodes = s.nodes ∧
      (handleCanvasClick s x y).energyPoints = s.energyPoints ∧
      (handleCanvasClick s x y).statusLog
          = ("[ERROR] PORT UNAVAILABLE. REROUTE CANCELLED." :: s.statusLog).take 20) ∧
    (s.nodes.any (fun n => decide (n.gridX = x ∧ n.gridY = y)) = false →
      isTileOnPath (x : ℚ) (y : ℚ) = false →
      s.energyPoints < max 1 (node.card.cost / 10) →
      (handleCanvasClick s x y).nodes = s.nodes ∧
      (handleCanvasClick s x y).energyPoints = s.energyPoints ∧
      (handleCanvasClick s x y).statusLog
          = ("[ERROR] INSUFFICIENT RAM FOR REROUTE." :: s.statusLog).take 20) ∧
    (s.nodes.any (fun n => decide (n.gridX = x ∧ n.gridY = y)) = false →
      isTileOnPath (x : ℚ) (y : ℚ) = false →
      max 1 (node.card.cost / 10) ≤ s.energyPoints →
      (handleCanvasClick s x y).energyPoints
          = s.energyPoints - max 1 (node.card.cost / 10) ∧
      (handleCanvasClick s x y).nodes = s.nodes.set ridx (node.startReroute x y) ∧
      (node.startReroute x y).gridX = x ∧ (node.startReroute x y).gridY = y) := by
  have hn' : s.nodes[ridx]? = some node := by
    rw [← List.get?_eq_getElem?]; exact hn
  have hb : ¬ (x < 0 ∨ x ≥ GRID_SIZE ∨ y < 0 ∨ y ≥ GRID_SIZE) := by
    simp only [GRID_SIZE] at hx1 hy1 ⊢
    omega
  refine ⟨?_, ?_, ?_⟩
  · intro hocc
    simp only [handleCanvasClick, hr, hn]
    rw [if_neg hb, if_pos hocc]
    simp [addLog]
  · intro hocc hpath hlt
    have hnocc : ¬ ((s.nodes.any fun n => decide (n.gridX = x ∧ n.gridY = y)) = true ∨
        isTileOnPath (x : ℚ) (y : ℚ) = true) := by
      rw [hocc, hpath]
      simp
    simp only [handleCanvasClick, hr, hn]
    rw [if_neg hb, if_neg hnocc, if_pos hlt]
    simp [addLog]
  · intro hocc hpath hle
    have hnocc : ¬ ((s.nodes.any fun n => decide (n.gridX = x ∧ n.gridY = y)) = true ∨
        isTileOnPath (x : ℚ) (y : ℚ) = true) := by
      rw [hocc, hpath]
      simp
    have hle' : ¬ s.energyPoints < max 1 (node.card.cost / 10) := by omega
    simp only [handleCanvasClick, hr, hn]
    rw [if_neg hb, if_neg hnocc, if_neg hle']
    simp [addLog]
    exact ⟨rfl, rfl⟩

/-- Demo for the reroute rule: one basic firewall at (4,4) being rerouted. -/
def rerouteDemo : AppState :=
  { baseState with nodes := [SecurityNode.new 4 4 basic_firewall],
                   reroutingNodeIndex := some 0 }

/-- C9 witness: clicking path tile (0,5) rejects the reroute (board, energy
    unchanged, error logged); clicking free tile (6,6) succeeds and charges
    max(1, floor(4 * 0.1)) = 1 energy (20 → 19) with the grid position moved. -/
theorem C9_reroute_witness :
    isTileOnPath (0 : ℚ) (5 : ℚ) = true ∧
    (handleCanvasClick rerouteDemo 0 5).nodes = rerouteDemo.nodes ∧
    (handleCanvasClick rerouteDemo 0 5).energyPoints = 20 ∧
    isTileOnPath (6 : ℚ) (6 : ℚ) = false ∧
    (handleCanvasClick rerouteDemo 6 6).energyPoints = 19 ∧
    ((handleCanvasClick rerouteDemo 6 6).nodes.get? 0).map (fun n => n.gridX)
        = some 6 := by
  have hpath : isTileOnPath (0 : ℚ) (5 : ℚ) = true := by decide
  have hfree : isTileOnPath (6 : ℚ) (6 : ℚ) = false := by decide
  have h1 := C9_reroute_rules rerouteDemo 0 5 0 (SecurityNode.new 4 4 basic_firewall)
    rfl rfl (by decide) (by decide) (by decide) (by decide)
  have h2 := C9_reroute_rules rerouteDemo 6 6 0 (SecurityNode.new 4 4 basic_firewall)
    rfl rfl (by decide) (by decide) (by decide) (by decide)
  have r1 := h1.1 (Or.inr hpath)
  have r2 := h2.2.2 (by decide) hfree (by decide)
  refine ⟨hpath, r1.1, ?_, hfree, ?_, ?_⟩
  · rw [r1.2.1]; decide
  · rw [r2.1]; decide
  · rw [r2.2.1]; rfl

/-- C2 (amended): with exactly one hand card selected and no reroute pending,
    a click places the card iff its category is SECURITY_NODE, the energy
    covers its cost, and the tile is free (no tower, not on the path); success
    deducts exactly the cost, removes exactly that card from the hand, appends
    it to the discard pile, and appends exactly one tower — the hand is NOT
    refilled by placement (refill happens only through the separate
    empty-hand effect).  On any failed precondition the energy, hand, discard,
    board and deploy counter are all unchanged. -/
theorem C2_placement_atomicity (s : AppState) (x y : ℤ) (idx : ℕ) (card : Card)
    (hr : s.reroutingNodeIndex = none)
    (hsel : s.selectedIndices = [idx])
    (hc : s.hand.get? idx = some card)
    (hx0 : 0 ≤ x) (hx1 : x < GRID_SIZE) (hy0 : 0 ≤ y) (hy1 : y < GRID_SIZE) :
    ((card.type = CardType.SECURITY_NODE ∧ card.cost ≤ s.energyPoints ∧
      s.nodes.findIdx? (fun n => decide (n.gridX = x ∧ n.gridY = y)) = none ∧
      isTileOnPath (x : ℚ) (y : ℚ) = false) →
      (handleCanvasClick s x y).energyPoints = s.energyPoints - card.cost ∧
      (handleCanvasClick s x y).hand = s.hand.eraseIdx idx ∧
      (handleCanvasClick s x y).discard = s.discard ++ [card] ∧
      (handleCanvasClick s x y).nodes = s.nodes ++ [SecurityNode.new x y card] ∧
      (handleCanvasClick s x y).deck = s.deck ∧
      (handleCanvasClick s x y).totalCardsDeployed = s.totalCardsDeployed + 1) ∧
    (¬ (card.type = CardType.SECURITY_NODE ∧ card.cost ≤ s.energyPoints ∧
        s.nodes.findIdx? (fun n => decide (n.gridX = x ∧ n.gridY = y)) = none ∧
        isTileOnPath (x : ℚ) (y : ℚ) = false) →
      (handleCanvasClick s x y).energyPoints = s.energyPoints ∧
      (handleCanvasClick s x y).hand = s.hand ∧
      (handleCanvasClick s x y).discard = s.discard ∧
      (handleCanvasClick s x y).nodes = s.nodes ∧
      (handleCanvasClick s x y).deck = s.deck ∧
      (handleCanvasClick s x y).totalCardsDeployed = s.totalCardsDeployed) := by
  have hb : ¬ (x < 0 ∨ x ≥ GRID_SIZE ∨ y < 0 ∨ y ≥ GRID_SIZE) := by
    simp only [GRID_SIZE] at hx1 hy1 ⊢
    omega
  rcases hfi : s.nodes.findIdx? (fun n => decide (n.gridX = x ∧ n.gridY = y)) with _ | k
  · -- tile not occupied by a node: the placement branch is reached
    have hany : s.nodes.any (fun n => decide (n.gridX = x ∧ n.gridY = y)) = false := by
      rw [List.any_eq_false]
      intro e he
      exact fun hp => by
        have := (List.findIdx?_eq_none_iff.1 hfi) e he
        rw [this] at hp
        cases hp
    constructor
    · intro hok
      have hcond : card.type = CardType.SECURITY_NODE ∧ card.cost ≤ s.energyPoints :=
        ⟨hok.1, hok.2.1⟩
      have hnocc : ¬ ((s.nodes.any fun n => decide (n.gridX = x ∧ n.gridY = y)) = true ∨
          isTileOnPath (x : ℚ) (y : ℚ) = true) := by
        rw [hany, hok.2.2.2]
        simp
      simp only [handleCanvasClick, hr, hsel, hc, hfi]
      rw [if_neg hb, if_pos hcond, if_neg hnocc]
      simp [addLog]
    · intro hnok
      by_cases ht : card.type = CardType.SECURITY_NODE ∧ card.cost ≤ s.energyPoints
      · -- category and energy fine, so the tile must be on the path
        have hpath : isTileOnPath (x : ℚ) (y : ℚ) = true := by
          rcases Bool.eq_false_or_eq_true (isTileOnPath (x : ℚ) (y : ℚ)) with hh | hh
          · exact hh
          · exact absurd ⟨ht.1, ht.2, hfi, hh⟩ hnok
        have hocc : ((s.nodes.any fun n => decide (n.gridX = x ∧ n.gridY = y)) = true ∨
            isTileOnPath (x : ℚ) (y : ℚ) = true) := Or.inr hpath
        simp only [handleCanvasClick, hr, hsel, hc, hfi]
        rw [if_neg hb, if_pos ht, if_pos hocc]
        simp [addLog]
      · -- category or energy precondition fails: no mutation
        simp only [handleCanvasClick, hr, hsel, hc, hfi]
        rw [if_neg hb, if_neg ht]
        by_cases he : s.energyPoints < card.cost
        · rw [if_pos he]
          simp [addLog]
        · rw [if_neg he]
          simp
  · -- tile occupied: the click selects the node, mutating no economy state
    constructor
    · intro hok
      rw [hok.2.2.1] at hfi
      cases hfi
    · intro _
      simp only [handleCanvasClick, hr, hfi]
      rw [if_neg hb]
      simp [addLog]

/-- Demo state for placement: two-card hand with the first selected, one card
    in the deck, 10 energy, empty board, no reroute pending. -/
def placementDemo : AppState :=
  { baseState with hand := [basic_firewall, scout_sensor],
                   deck := [static_burst], energyPoints := 10,
                   selectedIndices := [0] }

/-- C2 witness: placing the selected Basic Firewall on free tile (4,4)
    succeeds — energy 10 → 6, the card moves from hand to discard, exactly one
    tower appears; and a click on path tile (0,5) mutates nothing. -/
theorem C2_placement_witness :
    (handleCanvasClick placementDemo 4 4).energyPoints = 6 ∧
    (handleCanvasClick placementDemo 4 4).hand = [scout_sensor] ∧
    (handleCanvasClick placementDemo 4 4).discard = [basic_firewall] ∧
    (handleCanvasClick placementDemo 4 4).nodes
        = [SecurityNode.new 4 4 basic_firewall] ∧
    (handleCanvasClick placementDemo 0 5).energyPoints = 10 ∧
    (handleCanvasClick placementDemo 0 5).hand = placementDemo.hand := by
  have h1 := C2_placement_atomicity placementDemo 4 4 0 basic_firewall
    rfl rfl rfl (by decide) (by decide) (by decide) (by decide)
  have h2 := C2_placement_atomicity placementDemo 0 5 0 basic_firewall
    rfl rfl rfl (by decide) (by decide) (by decide) (by decide)
  have hfree : isTileOnPath ((4 : ℤ) : ℚ) ((4 : ℤ) : ℚ) = false := by decide
  have hpath : isTileOnPath ((0 : ℤ) : ℚ) ((5 : ℤ) : ℚ) = true := by decide
  have r1 := h1.1 ⟨rfl, by decide, rfl, hfree⟩
  have r2 := h2.2 (by
    intro hok
    rw [hpath] at hok
    cases hok.2.2.2)
  refine ⟨?_, ?_, ?_, ?_, ?_, r2.2.1⟩
  · rw [r1.1]; decide
  · rw [r1.2.1]; rfl
  · rw [r1.2.2.1]; rfl
  · rw [r1.2.2.2.1]; rfl
  · rw [r2.1]; rfl

/-- C2 counterexample to the claim as stated: the same successful placement
    leaves the hand with 1 card while the deck still holds a card, so the hand
    is not refilled on placement (a refill would have drawn the deck card,
    giving 2 cards). -/
theorem C2_placement_no_refill :
    (handleCanvasClick placementDemo 4 4).energyPoints = 6 ∧
    (handleCanvasClick placementDemo 4 4).hand.length = 1 ∧
    (handleCanvasClick placementDemo 4 4).deck = [static_burst] :=
  ⟨rfl, rfl, rfl⟩

/-- Six copies of the Basic Firewall card, as an advisor-style override. -/
def sixFirewalls : List Card :=
  [basic_firewall, basic_firewall, basic_firewall,
   basic_firewall, basic_firewall, basic_firewall]

/-- Demo state for the overriding-draw counterexample: one card in play total. -/
def overdrawDemo : AppState :=
  { baseState with hand := [scout_sensor] }

/-- Demo state for the plain draw: 1-card hand, 2-card deck. -/
def drawDemo : AppState :=
  { baseState with hand := [scout_sensor],
                   deck := [basic_firewall, static_burst] }

/-- popLast returns none exactly on the empty array. -/
theorem popLast_none_iff (l : List Card) : popLast l = none ↔ l = [] := by
  rw [popLast]
  rcases hl : l.reverse with _ | ⟨c, rest⟩
  · simp [List.reverse_eq_nil_iff.1 hl]
  · have : l ≠ [] := by
      intro h
      rw [h] at hl
      cases hl
    simp [this]

/-- popLast splits the array into its initial part and popped last element. -/
theorem popLast_some (l rest : List Card) (c : Card)
    (h : popLast l = some (c, rest)) : l = rest ++ [c] := by
  rw [popLast] at h
  rcases hl : l.reverse with _ | ⟨c2, rest2⟩ <;> rw [hl] at h
  · cases h
  · simp only [Option.some.injEq, Prod.mk.injEq] at h
    obtain ⟨h1, h2⟩ := h
    subst h1
    subst h2
    calc l = l.reverse.reverse := (List.reverse_reverse l).symm
    _ = (c2 :: rest2).reverse := by rw [hl]
    _ = rest2.reverse ++ [c2] := by simp

/-- The draw loop only appends to the hand. -/
theorem drawLoop_hand_mono (shuffle : List Card → List Card) (fuel : ℕ) :
    ∀ hand deck discard : List Card,
      hand.length ≤ (drawLoop shuffle fuel hand deck discard).1.length := by
  induction fuel with
  | zero => intro hand deck discard; simp [drawLoop]
  | succ n ih =>
    intro hand deck discard
    rw [drawLoop]
    by_cases hcond : hand.length < 5 ∧ (deck ≠ [] ∨ discard ≠ [])
    · rw [if_pos hcond]
      by_cases hd : deck = []
      · rw [if_pos hd]
        rcases hp : popLast (shuffle discard) with _ | ⟨c, dk⟩ <;> simp only [hp]
        · simp
        · calc hand.length ≤ (hand ++ [c]).length := by simp
          _ ≤ _ := ih (hand ++ [c]) dk []
      · rw [if_neg hd]
        rcases hp : popLast deck with _ | ⟨c, dk⟩ <;> simp only [hp]
        · simp
        · calc hand.length ≤ (hand ++ [c]).length := by simp
          _ ≤ _ := ih (hand ++ [c]) dk discard
    · rw [if_neg hcond]

/-- The draw loop never grows the hand beyond 5 cards. -/
theorem drawLoop_hand_le (shuffle : List Card → List Card) (fuel : ℕ) :
    ∀ hand deck discard : List Card, hand.length ≤ 5 →
      (drawLoop shuffle fuel hand deck discard).1.length ≤ 5 := by
  induction fuel with
  | zero => intro hand deck discard hh; simpa [drawLoop] using hh
  | succ n ih =>
    intro hand deck discard hh
    rw [drawLoop]
    by_cases hcond : hand.length < 5 ∧ (deck ≠ [] ∨ discard ≠ [])
    · rw [if_pos hcond]
      by_cases hd : deck = []
      · rw [if_pos hd]
        rcases hp : popLast (shuffle discard) with _ | ⟨c, dk⟩ <;> simp only [hp]
        · simpa using hh
        · refine ih (hand ++ [c]) dk [] ?_
          have := hcond.1
          simp only [List.length_append, List.length_cons, List.length_nil]
          omega
      · rw [if_neg hd]
        rcases hp : popLast deck with _ | ⟨c, dk⟩ <;> simp only [hp]
        · simpa using hh
        · refine ih (hand ++ [c]) dk discard ?_
          have := hcond.1
          simp only [List.length_append, List.length_cons, List.length_nil]
          omega
    · rw [if_neg hcond]
      simpa using hh

/-- The draw loop (with a permutation-preserving shuffle) only rearranges the
    cards among hand, deck and discard. -/
theorem drawLoop_perm (shuffle : List Card → List Card)
    (hs : ∀ l, (shuffle l).Perm l) (fuel : ℕ) :
    ∀ hand deck discard : List Card,
      ((drawLoop shuffle fuel hand deck discard).1 ++
       (drawLoop shuffle fuel hand deck discard).2.1 ++
       (drawLoop shuffle fuel hand deck discard).2.2).Perm
        (hand ++ deck ++ discard) := by
  induction fuel with
  | zero => intro hand deck discard; simp [drawLoop]
  | succ n ih =>
    intro hand deck discard
    rw [drawLoop]
    by_cases hcond : hand.length < 5 ∧ (deck ≠ [] ∨ discard ≠ [])
    · rw [if_pos hcond]
      by_cases hd : deck = []
      · subst hd
        rw [if_pos rfl]
        rcases hp : popLast (shuffle discard) with _ | ⟨c, dk⟩ <;> simp only [hp]
        · simpa using ((hs discard).append_left hand)
        · have hsplit : shuffle discard = dk ++ [c] := popLast_some _ _ _ hp
          have h1 := ih (hand ++ [c]) dk []
          refine h1.trans ?_
          have h2 : ((hand ++ [c]) ++ dk ++ []).Perm (hand ++ (dk ++ [c])) := by
            simp only [List.append_nil, List.append_assoc]
            exact List.Perm.append_left hand List.perm_append_comm
          refine h2.trans ?_
          rw [← hsplit]
          simpa using ((hs discard).append_left hand)
      · rw [if_neg hd]
        rcases hp : popLast deck with _ | ⟨c, dk⟩ <;> simp only [hp]
        · exact List.Perm.refl _
        · have hsplit : deck = dk ++ [c] := popLast_some _ _ _ hp
          have h1 := ih (hand ++ [c]) dk discard
          refine h1.trans ?_
          rw [hsplit]
          refine List.Perm.append ?_ (List.Perm.refl discard)
          simp only [List.append_assoc]
          exact List.Perm.append_left hand List.perm_append_comm
    · rw [if_neg hcond]

/-- C7 (amended): a draw without an overriding hand keeps the hand at 5 cards
    or fewer (given it held at most 5 before) and only rearranges cards —
    the multiset across deck, discard and hand is preserved by drawing and by
    the reshuffle-on-exhaustion. -/
theorem C7_draw_capacity_conservation (shuffle : List Card → List Card)
    (s : AppState) (hs : ∀ l, (shuffle l).Perm l) (hh : s.hand.length ≤ 5) :
    (drawHand shuffle none s).hand.length ≤ 5 ∧
    ((drawHand shuffle none s).hand ++ (drawHand shuffle none s).deck ++
      (drawHand shuffle none s).discard).Perm (s.hand ++ s.deck ++ s.discard) := by
  constructor
  · exact drawLoop_hand_le shuffle 5 s.hand s.deck s.discard hh
  · exact drawLoop_perm shuffle hs 5 s.hand s.deck s.discard

/-- C7 witness: drawing on a fresh state with a 1-card hand and a 2-card deck
    fills the hand to 3 cards and preserves the card total. -/
theorem C7_draw_witness :
    drawDemo.hand.length ≤ 5 ∧
    (drawHand id none drawDemo).hand.length ≤ 5 ∧
    ((drawHand id none drawDemo).hand ++ (drawHand id none drawDemo).deck ++
      (drawHand id none drawDemo).discard).Perm
        (drawDemo.hand ++ drawDemo.deck ++ drawDemo.discard) := by
  have h := C7_draw_capacity_conservation id drawDemo (fun l => List.Perm.refl l) (by decide)
  exact ⟨by decide, h.1, h.2⟩

/-- C7 counterexample to the claim as stated: drawHand as invoked from
    proceedToNextCycle passes an advisor-built overriding hand; with six
    suggested cards the hand ends at 6 > 5 cards and the deck+discard+hand
    total jumps from 1 to 6 — cards are created by an overriding draw. -/
theorem C7_overriding_draw_counterexample :
    (drawHand id (some sixFirewalls) overdrawDemo).hand.length = 6 ∧
    (drawHand id (some sixFirewalls) overdrawDemo).hand.length +
      (drawHand id (some sixFirewalls) overdrawDemo).deck.length +
      (drawHand id (some sixFirewalls) overdrawDemo).discard.length = 6 ∧
    overdrawDemo.hand.length + overdrawDemo.deck.length +
      overdrawDemo.discard.length = 1 :=
  ⟨rfl, rfl, rfl⟩

/-- C1 (amended): when the advisory call fails, getAegisReasoning returns the
    local fallback (never null), so proceedToNextCycle runs its normal branch
    with the fallback values: the wave counter increments by exactly 1, the
    energy bonus of 15 (clamped to MAX_ENERGY) is awarded, the hand is redrawn
    and is not left empty (the two fallback cards plus the refill), and the
    difficulty multiplier is overwritten with the fallback difficulty 1.0 —
    NOT kept at its prior value. -/
theorem C1_advisory_failure_fallback (shuffle : List Card → List Card)
    (s : AppState) (hv : s.isVictory = false) (ha : s.sessionActive = true) :
    (proceedToNextCycle shuffle (some (getAegisReasoning (Except.error ()))) s).waveNumber
        = s.waveNumber + 1 ∧
    (proceedToNextCycle shuffle (some (getAegisReasoning (Except.error ()))) s).energyPoints
        = min MAX_ENERGY (s.energyPoints + 15) ∧
    2 ≤ (proceedToNextCycle shuffle (some (getAegisReasoning (Except.error ()))) s).hand.length ∧
    (proceedToNextCycle shuffle (some (getAegisReasoning (Except.error ()))) s).difficultyMultiplier
        = 1 := by
  have hguard : ¬ (s.isVictory = true ∨ s.sessionActive = false) := by
    rw [hv, ha]
    simp
  have hmap : aegisFallback.exploit_kit_update.suggested_cards_ids.map
      (fun id => (lookupPool id).getD protocol_sentry)
        = [basic_firewall, protocol_sentry] := rfl
  simp only [proceedToNextCycle, getAegisReasoning, if_neg hguard]
  refine ⟨?_, ?_, ?_, ?_⟩
  · simp [drawHand, addLog]
  · simp [drawHand, addLog]
  · simp only [drawHand, addLog, hmap, Option.getD_some]
    simpa using drawLoop_hand_mono shuffle 5 [basic_firewall, protocol_sentry] _ _
  · simp [drawHand, addLog, aegisFallback]

/-- Demo state for the advisory fallback: mid-session, difficulty tuned up to
    1.5 by an earlier advisory response. -/
def advisoryDemo : AppState :=
  { baseState with waveNumber := 3, difficultyMultiplier := 3/2,
                   hand := [scout_sensor], deck := [basic_firewall] }

/-- C1 witness: on advisory failure from the demo state the wave counter goes
    3 → 4, energy 20 → 35, the hand is non-empty, and the multiplier is 1. -/
theorem C1_advisory_failure_witness :
    advisoryDemo.isVictory = false ∧ advisoryDemo.sessionActive = true ∧
    (proceedToNextCycle id (some (getAegisReasoning (Except.error ()))) advisoryDemo).waveNumber = 4 ∧
    (proceedToNextCycle id (some (getAegisReasoning (Except.error ()))) advisoryDemo).energyPoints = 35 ∧
    2 ≤ (proceedToNextCycle id (some (getAegisReasoning (Except.error ()))) advisoryDemo).hand.length := by
  have h := C1_advisory_failure_fallback id advisoryDemo rfl rfl
  refine ⟨rfl, rfl, ?_, ?_, h.2.2.1⟩
  · rw [h.1]; decide
  · rw [h.2.1]; decide

/-- C1 counterexample to the claim as stated: from a state with difficulty
    multiplier 1.5, the failure path sets the multiplier to the fallback value
    1.0, so it does NOT remain at its prior value. -/
theorem C1_multiplier_not_preserved :
    advisoryDemo.difficultyMultiplier = 3/2 ∧
    (proceedToNextCycle id (some (getAegisReasoning (Except.error ()))) advisoryDemo).difficultyMultiplier
        = 1 ∧
    ¬ ((3/2 : ℚ) = 1) := by
  refine ⟨rfl, rfl, by norm_num⟩

/-- C5: on every update tick of a travelling enemy the effective speed is
    baseSpeed * slowFactor (the tick behaves exactly as if the packet moved at
    that product), and the slow factor is reset to 1 during the same update,
    so the next tick runs at baseSpeed unless an aura reasserts the slow. -/
theorem C5_slow_decay (env : MathEnv) (e : MalwarePacket) (dt : ℚ)
    (h : e.pathIndex < e.path.length - 1) :
    (e.update env dt).1.slowFactor = 1 ∧
    (e.update env dt).1.currentSpeed = e.baseSpeed ∧
    (e.update env dt).1.x
        = (MalwarePacket.update env
            { e with baseSpeed := e.currentSpeed, slowFactor := 1 } dt).1.x ∧
    (e.update env dt).1.y
        = (MalwarePacket.update env
            { e with baseSpeed := e.currentSpeed, slowFactor := 1 } dt).1.y ∧
    (e.update env dt).1.pathIndex
        = (MalwarePacket.update env
            { e with baseSpeed := e.currentSpeed, slowFactor := 1 } dt).1.pathIndex := by
  have hguard : ¬ e.pathIndex ≥ e.path.length - 1 := by omega
  refine ⟨?_, ?_, ?_, ?_, ?_⟩ <;>
    simp only [MalwarePacket.update, MalwarePacket.currentSpeed,
      MalwarePacket.dxToNext, MalwarePacket.dyToNext, MalwarePacket.targetPoint,
      if_neg hguard, mul_one] <;>
    split_ifs <;>
    simp

/-- Shared demo math environment: sqrt correct at 14400, zero elsewhere. -/
def demoEnv : MathEnv :=
  { sqrt := fun q => if q = 14400 then 120 else 0,
    atan2 := fun _ _ => 0, pow2 := fun _ => 0 }

/-- A slowed STANDARD packet at the start of the App path (tile center of
    (0,5)), heading for waypoint (2,5): 120 pixels away. -/
def slowedPacket : MalwarePacket :=
  { x := 30, y := 330, hp := 40, maxHp := 40, speed := 2, baseSpeed := 2,
    path := appPath, pathIndex := 0, isDead := false, radius := 10,
    type := "STANDARD", slowFactor := 1/2, angle := 0, trail := [] }

/-- C5 witness: updating the half-slowed packet resets its slow factor to 1,
    so its next-tick effective speed is the base speed 2. -/
theorem C5_slow_decay_witness :
    slowedPacket.pathIndex < slowedPacket.path.length - 1 ∧
    (slowedPacket.update demoEnv 1).1.slowFactor = 1 ∧
    (slowedPacket.update demoEnv 1).1.currentSpeed = slowedPacket.baseSpeed := by
  have h := C5_slow_decay demoEnv slowedPacket 1 (by decide)
  exact ⟨by decide, h.1, h.2.1⟩

/-- C10: a single MalwarePacket.update call yields the same position, path
    cursor and reached-end signal for any two positive deltaTime arguments
    (movement is per-frame, not time-scaled), and in the non-snapping case the
    squared distance moved equals (baseSpeed * slowFactor)^2 — given that
    env.sqrt really is the square root of the squared distance to the next
    waypoint. -/
theorem C10_frame_rate_independence (env : MathEnv) (e : MalwarePacket)
    (dt1 dt2 : ℚ) (h1 : 0 < dt1) (h2 : 0 < dt2) :
    ((e.update env dt1).1.x = (e.update env dt2).1.x ∧
     (e.update env dt1).1.y = (e.update env dt2).1.y ∧
     (e.update env dt1).1.pathIndex = (e.update env dt2).1.pathIndex ∧
     (e.update env dt1).2 = (e.update env dt2).2) ∧
    (e.pathIndex < e.path.length - 1 →
     env.sqrt (e.dxToNext * e.dxToNext + e.dyToNext * e.dyToNext) *
       env.sqrt (e.dxToNext * e.dxToNext + e.dyToNext * e.dyToNext)
         = e.dxToNext * e.dxToNext + e.dyToNext * e.dyToNext →
     0 < env.sqrt (e.dxToNext * e.dxToNext + e.dyToNext * e.dyToNext) →
     ¬ env.sqrt (e.dxToNext * e.dxToNext + e.dyToNext * e.dyToNext) < e.currentSpeed →
     ((e.update env dt1).1.x - e.x) ^ 2 + ((e.update env dt1).1.y - e.y) ^ 2
         = e.currentSpeed ^ 2) := by
  constructor
  · refine ⟨?_, ?_, ?_, ?_⟩ <;>
      simp only [MalwarePacket.update] <;>
      split_ifs <;>
      simp
  · intro hpath hsq hpos hns
    have hguard : ¬ e.pathIndex ≥ e.path.length - 1 := by omega
    have hd : env.sqrt (e.dxToNext * e.dxToNext + e.dyToNext * e.dyToNext) ≠ 0 :=
      ne_of_gt hpos
    simp only [MalwarePacket.update, if_neg hguard, if_neg hns]
    have hxx : e.x + e.dxToNext /
        env.sqrt (e.dxToNext * e.dxToNext + e.dyToNext * e.dyToNext) *
          e.currentSpeed - e.x
        = e.dxToNext /
            env.sqrt (e.dxToNext * e.dxToNext + e.dyToNext * e.dyToNext) *
              e.currentSpeed := by ring
    have hyy : e.y + e.dyToNext /
        env.sqrt (e.dxToNext * e.dxToNext + e.dyToNext * e.dyToNext) *
          e.currentSpeed - e.y
        = e.dyToNext /
            env.sqrt (e.dxToNext * e.dxToNext + e.dyToNext * e.dyToNext) *
              e.currentSpeed := by ring
    rw [hxx, hyy]
    field_simp
    linear_combination (- e.currentSpeed ^ 2) * hsq

/-- The same packet as slowedPacket but unslowed, so currentSpeed = 2. -/
def steadyPacket : MalwarePacket :=
  { slowedPacket with slowFactor := 1 }

/-- C10 witness: updating with deltaTime 1 and deltaTime 7/2 lands the packet
    at the same spot, and the move covers currentSpeed = 2 pixels. -/
theorem C10_frame_rate_witness :
    (steadyPacket.update demoEnv 1).1.x = (steadyPacket.update demoEnv (7/2)).1.x ∧
    (steadyPacket.update demoEnv 1).1.pathIndex
        = (steadyPacket.update demoEnv (7/2)).1.pathIndex ∧
    ((steadyPacket.update demoEnv 1).1.x - steadyPacket.x) ^ 2 +
      ((steadyPacket.update demoEnv 1).1.y - steadyPacket.y) ^ 2
        = steadyPacket.currentSpeed ^ 2 := by
  have h := C10_frame_rate_independence demoEnv steadyPacket 1 (7/2)
    (by norm_num) (by norm_num)
  have hdx : steadyPacket.dxToNext = 120 := by
    norm_num [MalwarePacket.dxToNext, MalwarePacket.targetPoint, steadyPacket,
      slowedPacket, appPath, TILE_SIZE]
  have hdy : steadyPacket.dyToNext = 0 := by
    norm_num [MalwarePacket.dyToNext, MalwarePacket.targetPoint, steadyPacket,
      slowedPacket, appPath, TILE_SIZE]
  have hsqrt : demoEnv.sqrt (steadyPacket.dxToNext * steadyPacket.dxToNext +
      steadyPacket.dyToNext * steadyPacket.dyToNext) = 120 := by
    rw [hdx, hdy]
    norm_num [demoEnv]
  refine ⟨h.1.1, h.1.2.2.1, ?_⟩
  refine h.2 (by decide) ?_ ?_ ?_
  · rw [hsqrt, hdx, hdy]
    norm_num
  · rw [hsqrt]
    norm_num
  · rw [hsqrt]
    norm_num [MalwarePacket.currentSpeed, steadyPacket, slowedPacket]

/-- One FirewallBuffer.update call attributes a kill exactly when it applied
    its damage, that damage brought the target to 0 or below, and a source
    node is attached. -/
theorem update_killInc_eq (env : MathEnv) (p : FirewallBuffer) (t : MalwarePacket) :
    (p.update env t).killInc
      = ((p.update env t).didDamage &&
         (decide ((p.update env t).target.hp ≤ 0) && p.hasSource)) := by
  rw [FirewallBuffer.update]
  by_cases h1 : t.hp ≤ 0
  · rw [if_pos h1]
    simp
  · rw [if_neg h1]
    by_cases h2 : env.sqrt ((t.x - p.x) * (t.x - p.x) + (t.y - p.y) * (t.y - p.y)) < p.speed
    · rw [if_pos h2]
      simp
    · rw [if_neg h2]
      simp

/-- A FirewallBuffer that applied its damage is dead from that call on. -/
theorem update_isDead_of_didDamage (env : MathEnv) (p : FirewallBuffer)
    (t : MalwarePacket) (h : (p.update env t).didDamage = true) :
    (p.update env t).proj.isDead = true := by
  rw [FirewallBuffer.update] at h ⊢
  by_cases h1 : t.hp ≤ 0
  · rw [if_pos h1]
  · rw [if_neg h1] at h ⊢
    by_cases h2 : env.sqrt ((t.x - p.x) * (t.x - p.x) + (t.y - p.y) * (t.y - p.y)) < p.speed
    · rw [if_pos h2]
    · rw [if_neg h2] at h
      cases h

/-- A dead projectile is removed before it is ever updated again. -/
theorem runProj_dead (env : MathEnv) (tchange : ℕ → MalwarePacket → MalwarePacket)
    (fuel : ℕ) (p : FirewallBuffer) (t : MalwarePacket) (h : p.isDead = true) :
    runProj env tchange fuel p t = (0, 0) := by
  cases fuel with
  | zero => rfl
  | succ n =>
    rw [runProj]
    rw [if_pos h]

/-- Over any projectile lifetime, damage is applied at most once and the kill
    counter is bumped at most as often as damage lands. -/
theorem runProj_bounds (env : MathEnv) (tchange : ℕ → MalwarePacket → MalwarePacket) :
    ∀ (fuel : ℕ) (p : FirewallBuffer) (t : MalwarePacket),
      (runProj env tchange fuel p t).1 ≤ 1 ∧
      (runProj env tchange fuel p t).2 ≤ (runProj env tchange fuel p t).1 := by
  intro fuel
  induction fuel with
  | zero => intro p t; simp [runProj]
  | succ n ih =>
    intro p t
    rw [runProj]
    by_cases hd : p.isDead = true
    · rw [if_pos hd]
      simp
    · rw [if_neg hd]
      have hk := update_killInc_eq env p t
      by_cases hdd : (p.update env t).didDamage = true
      · have hdead := update_isDead_of_didDamage env p t hdd
        rw [runProj_dead env tchange n (p.update env t).proj
          (tchange n (p.update env t).target) hdead]
        rw [hdd] at hk ⊢
        simp only [Bool.true_and] at hk
        rw [hk]
        constructor
        · simp
        · split_ifs <;> simp_all
      · have hdd' : (p.update env t).didDamage = false := by
          rcases Bool.eq_false_or_eq_true ((p.update env t).didDamage) with hh | hh
          · exact absurd hh hdd
          · exact hh
        rw [hdd'] at hk
        simp only [Bool.false_and] at hk
        rw [hdd', hk]
        have := ih (p.update env t).proj (tchange n (p.update env t).target)
        constructor
        · simpa using this.1
        · simpa using this.2

/-- C6: a projectile whose target is already at hp ≤ 0 when update runs
    applies zero damage and marks itself dead on that same call; over its
    whole lifetime (updated once per frame and removed as soon as it is dead,
    with the target free to change between frames) a projectile applies its
    damage at most once, and it bumps the source node kill counter exactly
    when its single damage application brings the target to hp ≤ 0. -/
theorem C6_projectile_single_hit (env : MathEnv) (p : FirewallBuffer)
    (t : MalwarePacket) (tchange : ℕ → MalwarePacket → MalwarePacket) (fuel : ℕ) :
    (t.hp ≤ 0 →
      (p.update env t).proj.isDead = true ∧ (p.update env t).target = t ∧
      (p.update env t).didDamage = false ∧ (p.update env t).killInc = false) ∧
    ((p.update env t).killInc
        = ((p.update env t).didDamage &&
           (decide ((p.update env t).target.hp ≤ 0) && p.hasSource))) ∧
    (runProj env tchange fuel p t).1 ≤ 1 ∧
    (runProj env tchange fuel p t).2 ≤ (runProj env tchange fuel p t).1 := by
  refine ⟨?_, update_killInc_eq env p t, (runProj_bounds env tchange fuel p t).1,
    (runProj_bounds env tchange fuel p t).2⟩
  intro h
  rw [FirewallBuffer.update]
  rw [if_pos h]
  exact ⟨rfl, rfl, rfl, rfl⟩

/-- A target that is already dead (hp = 0). -/
def deadPacket : MalwarePacket :=
  { slowedPacket with hp := 0 }

/-- A projectile fired by a node (source attached) with damage 50. -/
def projDemo : FirewallBuffer :=
  FirewallBuffer.new 0 0 50 true

/-- C6 witness: against the dead packet the projectile deals nothing and dies
    on the same call, and a 10-frame lifetime against the live packet deals
    damage at most once. -/
theorem C6_projectile_witness :
    deadPacket.hp ≤ 0 ∧
    (projDemo.update demoEnv deadPacket).proj.isDead = true ∧
    (projDemo.update demoEnv deadPacket).didDamage = false ∧
    (runProj demoEnv (fun _ t => t) 10 projDemo slowedPacket).1 ≤ 1 := by
  have h := C6_projectile_single_hit demoEnv projDemo deadPacket (fun _ t => t) 10
  have h2 := C6_projectile_single_hit demoEnv projDemo slowedPacket (fun _ t => t) 10
  have hz : deadPacket.hp ≤ 0 := by decide
  have hr := h.1 hz
  exact ⟨hz, hr.1, hr.2.2.1, h2.2.2.1⟩

end CircuitBreach
